import Mathlib

/-!
Shallow embedding of the PharmaGuard backend (`BACKEND/app.py`): the
variant-to-risk decision pipeline.  Python strings are modelled as Lean
`String`s with structural helper functions over `List Char` so that every
definition evaluates inside the kernel; Python floats are modelled as `ℚ`;
Python dicts are modelled as insertion-ordered association lists with
last-write-wins insertion; fallible Python code (statements that can raise)
returns `Except PyError`.  The nondeterministic fields `patient_id` and
`timestamp` of a result record are omitted; the outbound HTTP call of the
explanation adapter is modelled by an `LLMOutcome` describing the
collaborator's observable response.
-/

namespace PharmaGuard

/-- Python `needle in hay` substring containment on character lists,
written structurally so the kernel can evaluate it. -/
def containsSub (needle : List Char) : List Char → Bool
  | [] => needle.isPrefixOf []
  | c :: t => needle.isPrefixOf (c :: t) || containsSub needle t

/-- Python `needle in hay` on strings. -/
def pyIn (needle hay : String) : Bool := containsSub needle.data hay.data

/-- Python `s.startswith(pre)`. -/
def pyStartsWith (pre s : String) : Bool := pre.data.isPrefixOf s.data

/-- Python `s.endswith(suf)`. -/
def pyEndsWith (suf s : String) : Bool := suf.data.reverse.isPrefixOf s.data.reverse

/-- Python `s[n:]`. -/
def pyDrop (n : Nat) (s : String) : String := String.mk (s.data.drop n)

/-- Python `s[:-n]` for `n ≤ len(s)`. -/
def pyDropRight (n : Nat) (s : String) : String := String.mk (s.data.take (s.data.length - n))

/-- Characters removed by Python `str.strip()` with no argument. -/
def isPyWhitespace (c : Char) : Bool :=
  c == ' ' || c == '\t' || c == '\n' || c == '\r' || c == '\x0b' || c == '\x0c'

/-- Python `s.strip()`. -/
def pyStrip (s : String) : String :=
  String.mk (((s.data.dropWhile isPyWhitespace).reverse.dropWhile isPyWhitespace).reverse)

/-- Python `s.upper()` (the source only uppercases ASCII gene symbols). -/
def pyUpper (s : String) : String := String.mk (s.data.map Char.toUpper)

/-- Helper for `pySplitChar`: split a character list at a separator. -/
def splitOnCharAux (sep : Char) : List Char → List Char → List (List Char)
  | [], acc => [acc.reverse]
  | c :: rest, acc =>
    if c = sep then acc.reverse :: splitOnCharAux sep rest []
    else splitOnCharAux sep rest (c :: acc)

/-- Python `s.split(sep)` for a one-character separator (the source only
splits on `"\t"`, `";"` and `"="`). -/
def pySplitChar (sep : Char) (s : String) : List String :=
  (splitOnCharAux sep s.data []).map String.mk

/-- Drop one trailing carriage return, for `\r\n` line endings. -/
def stripCR (s : String) : String :=
  if s.data.getLast? = some '\r' then String.mk s.data.dropLast else s

/-- Python `s.splitlines()` restricted to `\n` / `\r\n` terminators:
split on newlines and drop the final empty piece a terminating newline
would otherwise produce. -/
def pySplitlines (s : String) : List String :=
  let ps := (pySplitChar '\n' s).map stripCR
  if ps.getLast? = some "" then ps.dropLast else ps

/-- Python dict lookup `m.get(k)` on an insertion-ordered association list. -/
def dictGet? {α : Type} : List (String × α) → String → Option α
  | [], _ => none
  | (k, v) :: t, key => if key = k then some v else dictGet? t key

/-- Python dict assignment `m[k] = v`: replace in place if the key exists,
otherwise append (preserving insertion order). -/
def dictInsert {α : Type} (m : List (String × α)) (k : String) (v : α) : List (String × α) :=
  if (dictGet? m k).isSome then m.map (fun p => if p.1 = k then (k, v) else p)
  else m ++ [(k, v)]

/-! ### Static tables (`app.py` lines 12-49) -/

def SUPPORTED_DRUGS : List String :=
  ["CODEINE", "WARFARIN", "CLOPIDOGREL", "SIMVASTATIN", "AZATHIOPRINE", "FLUOROURACIL"]

def TARGET_GENES : List String :=
  ["CYP2D6", "CYP2C19", "CYP2C9", "SLCO1B1", "TPMT", "DPYD"]

/-- One entry of the known-variant catalog keyed by rsID. -/
structure KnownVariant where
  gene : String
  star : String
deriving DecidableEq, Repr

/-- Known pharmacogenomic variants by rsID (`KNOWN_VARIANTS`). -/
def KNOWN_VARIANTS : List (String × KnownVariant) :=
  [ ("rs3892097", ⟨"CYP2D6", "*4"⟩),
    ("rs1065852", ⟨"CYP2D6", "*10"⟩),
    ("rs28371706", ⟨"CYP2D6", "*5"⟩),
    ("rs4244285", ⟨"CYP2C19", "*2"⟩),
    ("rs4986893", ⟨"CYP2C19", "*3"⟩),
    ("rs1799853", ⟨"CYP2C9", "*2"⟩),
    ("rs1057910", ⟨"CYP2C9", "*3"⟩),
    ("rs4149056", ⟨"SLCO1B1", "*5"⟩),
    ("rs1800462", ⟨"TPMT", "*2"⟩),
    ("rs1800460", ⟨"TPMT", "*3A"⟩),
    ("rs1142345", ⟨"TPMT", "*3A"⟩),
    ("rs1800584", ⟨"TPMT", "*3C"⟩),
    ("rs3918290", ⟨"DPYD", "*2A"⟩),
    ("rs55886062", ⟨"DPYD", "*13"⟩) ]

def DRUG_GENE_MAP : List (String × List String) :=
  [ ("CODEINE", ["CYP2D6"]),
    ("WARFARIN", ["CYP2C9", "VKORC1"]),
    ("CLOPIDOGREL", ["CYP2C19"]),
    ("SIMVASTATIN", ["SLCO1B1"]),
    ("AZATHIOPRINE", ["TPMT", "NUDT15"]),
    ("FLUOROURACIL", ["DPYD"]) ]

def ALTERNATIVE_SUGGESTIONS : List (String × String) :=
  [ ("CODEINE", "Consider morphine or fentanyl as alternative opioids"),
    ("WARFARIN", "Consider direct oral anticoagulants like apixaban or rivaroxaban"),
    ("CLOPIDOGREL", "Consider aspirin or ticagrelor as alternative antiplatelets"),
    ("SIMVASTATIN", "Consider pravastatin or atorvastatin as alternative statins"),
    ("AZATHIOPRINE", "Consider mycophenolate mofetil as alternative immunosuppressant"),
    ("FLUOROURACIL", "Consider capecitabine as alternative fluoropyrimidine") ]

/-! ### VCF parser (`parse_vcf`, lines 91-137) -/

/-- Python runtime errors that the parser can raise. -/
inductive PyError where
  | valueError (msg : String)
deriving DecidableEq, Repr

instance {ε α : Type} [DecidableEq ε] [DecidableEq α] : DecidableEq (Except ε α) := fun x y =>
  match x, y with
  | .ok a, .ok b => if h : a = b then isTrue (by rw [h]) else isFalse (by simp [h])
  | .error a, .error b => if h : a = b then isTrue (by rw [h]) else isFalse (by simp [h])
  | .ok _, .error _ => isFalse (by simp)
  | .error _, .ok _ => isFalse (by simp)

/-- One detected variant for a gene.  Fields that Python stores only for
lines parsed from the file (and not for wild-type defaults) are `Option`s;
`"rsid" in v` in the source corresponds to `v.rsid.isSome`. -/
structure Variant where
  chrom : Option String
  pos : Option String
  rsid : Option String
  ref : Option String
  alt : Option String
  gene : String
  star : String
deriving DecidableEq, Repr

/-- The parser's output: Python dict gene → variant record. -/
abbrev VMap := List (String × Variant)

/-- One iteration of the `for item in info.split(";")` loop: the source runs
`if "=" in item: k,v = item.split("="); info_dict[k]=v`.  An item without
`=` is skipped; an item with two or more `=` makes the tuple unpacking
raise `ValueError`. -/
def parseInfoItem (d : List (String × String)) (item : String) :
    Except PyError (List (String × String)) :=
  match pySplitChar '=' item with
  | [_] => .ok d
  | [k, v] => .ok (dictInsert d k v)
  | _ => .error (.valueError "too many values to unpack")

/-- Body of the line loop of `parse_vcf` for a non-comment line with at
least 8 tab-separated fields `p0 .. p7` (`p5`, `p6` are unused). -/
def parseFields (variants : VMap) (p0 p1 p2 p3 p4 p7 : String) : Except PyError VMap :=
  let rsid := p2
  match dictGet? KNOWN_VARIANTS rsid with
  | some kv =>
    if TARGET_GENES.contains kv.gene then
      .ok (dictInsert variants kv.gene
        { chrom := some p0, pos := some p1, rsid := some rsid,
          ref := some p3, alt := some p4, gene := kv.gene, star := kv.star })
    else .ok variants
  | none => do
    let info_dict ← (pySplitChar ';' p7).foldlM parseInfoItem []
    let gene : Option String :=
      (dictGet? info_dict "GENE").map (fun g => if g = "" then g else pyUpper g)
    match gene with
    | some g =>
      if TARGET_GENES.contains g then
        .ok (dictInsert variants g
          { chrom := some p0, pos := some p1, rsid := some p2,
            ref := some p3, alt := some p4, gene := g,
            star := (dictGet? info_dict "STAR").getD "*1" })
      else .ok variants
    | none => .ok variants

/-- One iteration of the line loop of `parse_vcf`. -/
def parseLine (variants : VMap) (line : String) : Except PyError VMap :=
  if pyStartsWith "#" line then .ok variants
  else
    match pySplitChar '\t' line with
    | p0 :: p1 :: p2 :: p3 :: p4 :: _ :: _ :: p7 :: _ => parseFields variants p0 p1 p2 p3 p4 p7
    | _ => .ok variants

/-- The variant extractor `parse_vcf`, over the decoded text of the file.
(The byte-level `file_content.decode()` step is outside this model; it can
itself raise `UnicodeDecodeError` on non-UTF-8 bytes.) -/
def parse_vcf (content : String) : Except PyError VMap :=
  (pySplitlines content).foldlM parseLine []

/-- Invariant of the extractor's output mapping: every key with an entry
is one of the six target genes. -/
def TargetOnly (m : VMap) : Prop :=
  ∀ g : String, (dictGet? m g).isSome = true → TARGET_GENES.contains g = true

/-! ### Phenotype classifier (`get_phenotype`, lines 140-148) -/

/-- Maps an allele-designator string to a phenotype category by substring
containment, checked in priority order PM, IM, URM, with default NM.
The `gene` argument is unused, as in the source. -/
def get_phenotype (gene star : String) : String :=
  let pm := ["*3", "*4", "*5", "*6"]
  let im := ["*9", "*10", "*17", "*41"]
  let rm := ["*1xN", "*2xN"]
  if pm.any (fun p => pyIn p star) then "PM"
  else if im.any (fun i => pyIn i star) then "IM"
  else if rm.any (fun m => pyIn m star) then "URM"
  else "NM"

/-! ### Risk rule engine (`evaluate_drug`, lines 150-200) -/

/-- The static nested rule table of `evaluate_drug`: drug → phenotype →
(risk label, rationale). -/
def rules : List (String × List (String × (String × String))) :=
  [ ("CODEINE",
      [ ("PM", ("Toxic", "Poor CYP2D6 function limits conversion to morphine; avoid or use alternative")),
        ("URM", ("Toxic", "Ultra-rapid conversion to morphine; risk of respiratory depression")),
        ("IM", ("Adjust Dosage", "Reduced conversion; consider higher monitored dosing or alternative")),
        ("NM", ("Safe", "Normal CYP2D6 activity; standard dosing")) ]),
    ("WARFARIN",
      [ ("PM", ("Adjust Dosage", "Reduced CYP2C9 metabolism; lower dose to avoid bleeding")),
        ("IM", ("Adjust Dosage", "Slower clearance; titrate carefully")),
        ("NM", ("Safe", "Standard dosing")),
        ("RM", ("Adjust Dosage", "Faster clearance possible; monitor INR")),
        ("URM", ("Adjust Dosage", "Potential rapid metabolism; monitor INR closely")) ]),
    ("CLOPIDOGREL",
      [ ("PM", ("Ineffective", "Poor CYP2C19 activation of prodrug; use alternative antiplatelet")),
        ("IM", ("Adjust Dosage", "Reduced activation; consider alternative")),
        ("NM", ("Safe", "Standard dosing")),
        ("RM", ("Safe", "Standard dosing")),
        ("URM", ("Safe", "Standard dosing")) ]),
    ("SIMVASTATIN",
      [ ("PM", ("Toxic", "SLCO1B1 reduced function increases myopathy risk")),
        ("IM", ("Adjust Dosage", "Moderate transport reduction; lower dose or alternative")),
        ("NM", ("Safe", "Standard dosing")) ]),
    ("AZATHIOPRINE",
      [ ("PM", ("Toxic", "TPMT deficiency causes myelosuppression; avoid or drastically reduce")),
        ("IM", ("Adjust Dosage", "Intermediate TPMT activity; dose reduction")),
        ("NM", ("Safe", "Standard dosing")) ]),
    ("FLUOROURACIL",
      [ ("PM", ("Toxic", "DPYD deficiency leads to severe toxicity; avoid or extreme reduction")),
        ("IM", ("Adjust Dosage", "Reduced DPD activity; lower dose with monitoring")),
        ("NM", ("Safe", "Standard dosing")) ]) ]

/-- The rule lookup `rules.get(drug, {}).get(phenotype, ("Unknown", ...))`. -/
def lookupRule (drug phenotype : String) : String × String :=
  (dictGet? ((dictGet? rules drug).getD []) phenotype).getD
    ("Unknown", "Insufficient evidence for this drug/phenotype")

def severity_map : List (String × String) :=
  [ ("Safe", "none"), ("Adjust Dosage", "moderate"), ("Toxic", "critical"),
    ("Ineffective", "high"), ("Unknown", "low") ]

/-- Maps (drug, phenotype) to (risk label, severity, rationale). -/
def evaluate_drug (drug phenotype : String) : String × String × String :=
  let rl := lookupRule drug phenotype
  let severity := (dictGet? severity_map rl.1).getD "low"
  (rl.1, severity, rl.2)

/-! ### Derived metrics (lines 52-88) -/

/-- Python `min` on two rationals. -/
def pymin (a b : ℚ) : ℚ := if a ≤ b then a else b

/-- Python round-half-even of a nonnegative rational to an integer, used to
model the `:.1%` float formatting of the confidence basis. -/
def roundHalfEven (y : ℚ) : ℤ :=
  let q := ⌊y⌋
  if y - q < 1/2 then q
  else if 1/2 < y - q then q + 1
  else if q % 2 = 0 then q else q + 1

/-- Python `f"{x:.1%}"` for nonnegative `x`. -/
def fmtPercent1 (x : ℚ) : String :=
  let n := roundHalfEven (x * 1000)
  toString (n / 10) ++ "." ++ toString (n % 10) ++ "%"

/-- Confidence scoring (`calculate_improved_confidence`): base 0.85, bonus
for NM/Safe and for full gene availability, completeness-scaled bonus,
capped at 0.99; returns the score and the human-readable basis string. -/
def calculate_improved_confidence (phenotype risk_label : String)
    (all_genes_available : Bool) (genes_found : List String) (total_genes : Nat) :
    ℚ × String :=
  let base : ℚ := 0.85
  let base := if phenotype = "NM" ∧ risk_label = "Safe" then base + 0.1 else base
  let base := if all_genes_available then base + 0.05 else base
  let completeness : ℚ := if 0 < total_genes then (genes_found.length : ℚ) / (total_genes : ℚ) else 0
  let base := base + completeness * 0.05
  let basis := "Confidence based on phenotype (" ++ phenotype ++ "), risk (" ++ risk_label
    ++ "), data completeness (" ++ fmtPercent1 completeness ++ "), and gene availability ("
    ++ (if all_genes_available then "full" else "partial") ++ ")."
  (pymin base 0.99, basis)

/-- Clinical alert record. -/
structure Alert where
  alert_level : String
  message : String
  action_required : Bool
deriving DecidableEq, Repr

/-- Alert generation (`generate_clinical_alert`). -/
def generate_clinical_alert (risk_label severity : String) : Option Alert :=
  if ["Toxic", "Ineffective"].contains risk_label ∨ severity = "critical" then
    some { alert_level := "High",
           message := "Physician consultation strongly recommended before prescribing.",
           action_required := true }
  else none

/-- Alternative-drug suggestion (`suggest_alternative`). -/
def suggest_alternative (drug risk_label : String) : Option String :=
  if ["Toxic", "Ineffective"].contains risk_label then
    some ((dictGet? ALTERNATIVE_SUGGESTIONS drug).getD "Consult pharmacist for alternatives")
  else none

/-! ### Explanation adapter (`call_llm`, lines 203-264)

The outbound HTTP request is an external collaborator; its observable
outcome is modelled by `LLMOutcome`.  The `json.loads` call of the source
is modelled by `json_loads`, a JSON parser over the character list of the
payload text. -/

/-- JSON values as returned by `json.loads` (numbers kept as raw text,
which the source never inspects). -/
inductive JValue where
  | jnull
  | jbool (b : Bool)
  | jnum (raw : String)
  | jstr (s : String)
  | jarr (elems : List JValue)
  | jobj (fields : List (String × JValue))

/-- JSON insignificant whitespace. -/
def jskipWs (cs : List Char) : List Char :=
  cs.dropWhile (fun c => c == ' ' || c == '\t' || c == '\n' || c == '\r')

/-- Value of a hexadecimal digit. -/
def jhexVal (c : Char) : Option Nat :=
  if '0' ≤ c ∧ c ≤ '9' then some (c.toNat - '0'.toNat)
  else if 'a' ≤ c ∧ c ≤ 'f' then some (c.toNat - 'a'.toNat + 10)
  else if 'A' ≤ c ∧ c ≤ 'F' then some (c.toNat - 'A'.toNat + 10)
  else none

/-- Parse the body of a JSON string after the opening quote, handling the
JSON escape sequences; returns the decoded characters and the rest of the
input.  Fuel-based so that the kernel can evaluate it. -/
def jparseStringAux : Nat → List Char → List Char → Option (List Char × List Char)
  | 0, _, _ => none
  | _ + 1, _, [] => none
  | fuel + 1, acc, c :: rest =>
    if c = '"' then some (acc.reverse, rest)
    else if c = '\\' then
      match rest with
      | [] => none
      | e :: rest2 =>
        if e = '"' then jparseStringAux fuel ('"' :: acc) rest2
        else if e = '\\' then jparseStringAux fuel ('\\' :: acc) rest2
        else if e = '/' then jparseStringAux fuel ('/' :: acc) rest2
        else if e = 'b' then jparseStringAux fuel ('\x08' :: acc) rest2
        else if e = 'f' then jparseStringAux fuel ('\x0c' :: acc) rest2
        else if e = 'n' then jparseStringAux fuel ('\n' :: acc) rest2
        else if e = 'r' then jparseStringAux fuel ('\r' :: acc) rest2
        else if e = 't' then jparseStringAux fuel ('\t' :: acc) rest2
        else if e = 'u' then
          match rest2 with
          | h1 :: h2 :: h3 :: h4 :: rest3 =>
            match jhexVal h1, jhexVal h2, jhexVal h3, jhexVal h4 with
            | some a, some b, some c2, some d =>
              jparseStringAux fuel (Char.ofNat (((a * 16 + b) * 16 + c2) * 16 + d) :: acc) rest3
            | _, _, _, _ => none
          | _ => none
        else none
    else if c.toNat < 32 then none
    else jparseStringAux fuel (c :: acc) rest

/-- Parse a JSON number, returning its raw text and the rest of the input. -/
def jparseNumber (cs : List Char) : Option (List Char × List Char) :=
  let sign : List Char := match cs with | '-' :: _ => ['-'] | _ => []
  let cs1 := cs.drop sign.length
  let intd := cs1.takeWhile Char.isDigit
  let cs2 := cs1.drop intd.length
  if intd = [] then none
  else if 1 < intd.length ∧ intd.head? = some '0' then none
  else
    let fracd : List Char :=
      match cs2 with
      | '.' :: t => '.' :: t.takeWhile Char.isDigit
      | _ => []
    if fracd = ['.'] then none
    else
      let cs3 := cs2.drop fracd.length
      match cs3 with
      | e :: t =>
        if e = 'e' ∨ e = 'E' then
          let esign : List Char :=
            match t with
            | c :: _ => if c = '+' ∨ c = '-' then [c] else []
            | [] => []
          let t2 := t.drop esign.length
          let expd := t2.takeWhile Char.isDigit
          if expd = [] then none
          else some (sign ++ intd ++ fracd ++ e :: esign ++ expd, t2.drop expd.length)
        else some (sign ++ intd ++ fracd, cs3)
      | [] => some (sign ++ intd ++ fracd, cs3)

mutual

/-- Parse one JSON value; fuel decreases on every recursive call so the
definitions are structurally recursive and kernel-evaluable. -/
def jparseValue : Nat → List Char → Option (JValue × List Char)
  | 0, _ => none
  | fuel + 1, cs =>
    match jskipWs cs with
    | [] => none
    | 'n' :: 'u' :: 'l' :: 'l' :: rest => some (.jnull, rest)
    | 't' :: 'r' :: 'u' :: 'e' :: rest => some (.jbool true, rest)
    | 'f' :: 'a' :: 'l' :: 's' :: 'e' :: rest => some (.jbool false, rest)
    | '"' :: rest =>
      match jparseStringAux (rest.length + 1) [] rest with
      | some (s, r) => some (.jstr (String.mk s), r)
      | none => none
    | '[' :: rest =>
      match jskipWs rest with
      | ']' :: r => some (.jarr [], r)
      | other => jparseArrayItems fuel other []
    | '{' :: rest =>
      match jskipWs rest with
      | '}' :: r => some (.jobj [], r)
      | other => jparseObjItems fuel other []
    | c :: rest =>
      if c = '-' ∨ c.isDigit then
        match jparseNumber (c :: rest) with
        | some (raw, r) => some (.jnum (String.mk raw), r)
        | none => none
      else none

/-- Parse the comma-separated items of a JSON array up to `]`. -/
def jparseArrayItems : Nat → List Char → List JValue → Option (JValue × List Char)
  | 0, _, _ => none
  | fuel + 1, cs, acc =>
    match jparseValue fuel cs with
    | none => none
    | some (v, rest) =>
      match jskipWs rest with
      | ',' :: r => jparseArrayItems fuel r (v :: acc)
      | ']' :: r => some (.jarr (v :: acc).reverse, r)
      | _ => none

/-- Parse the comma-separated members of a JSON object up to `}`. -/
def jparseObjItems : Nat → List Char → List (String × JValue) → Option (JValue × List Char)
  | 0, _, _ => none
  | fuel + 1, cs, acc =>
    match jskipWs cs with
    | '"' :: rest =>
      match jparseStringAux (rest.length + 1) [] rest with
      | none => none
      | some (k, r1) =>
        match jskipWs r1 with
        | ':' :: r2 =>
          match jparseValue fuel r2 with
          | none => none
          | some (v, r3) =>
            match jskipWs r3 with
            | ',' :: r4 => jparseObjItems fuel r4 ((String.mk k, v) :: acc)
            | '}' :: r4 => some (.jobj ((String.mk k, v) :: acc).reverse, r4)
            | _ => none
        | _ => none
    | _ => none

end

/-- Model of Python `json.loads`: parse one JSON document and require that
only whitespace remains. -/
def json_loads (s : String) : Option JValue :=
  match jparseValue (s.data.length + 1) s.data with
  | some (v, rest) => if jskipWs rest = [] then some v else none
  | none => none

/-- The dict literal used for every degraded explanation in `call_llm`:
the given text in `genetic_finding` and empty strings elsewhere. -/
def fallbackExplanation (first : String) : JValue :=
  .jobj [ ("genetic_finding", .jstr first), ("biological_mechanism", .jstr ""),
          ("clinical_impact", .jstr ""), ("recommended_action", .jstr "") ]

/-- The markdown code-fence cleanup of `call_llm` applied to the stripped
response text. -/
def cleanResponseText (s : String) : String :=
  if pyStartsWith "```" s then
    let s := pyStrip (pyDrop 3 s)
    let s := if pyStartsWith "json" s then pyStrip (pyDrop 4 s) else s
    if pyEndsWith "```" s then pyStrip (pyDropRight 3 s) else s
  else s

/-- Observable outcome of the outbound collaborator call of `call_llm`. -/
inductive LLMOutcome where
  /-- `GROQ_API_KEY` is not set; no request is made. -/
  | noKey
  /-- `raise_for_status` raised `requests.HTTPError` with formatted
  exception text `e` and response detail `detail`. -/
  | httpError (e detail : String)
  /-- Any other exception (timeout, transport failure, bad response JSON)
  with formatted text `msg`. -/
  | exn (msg : String)
  /-- HTTP success; `content` is `choices[0].message.content` of the
  response body. -/
  | ok (content : String)
deriving DecidableEq, Repr

/-- The response handling of `call_llm`: every path produces an
explanation object, and only the `.ok` path with a parseable payload uses
the collaborator's content as-is. -/
def call_llm : LLMOutcome → JValue
  | .noKey => fallbackExplanation "LLM Analysis unavailable: GROQ_API_KEY not set."
  | .httpError e detail => fallbackExplanation ("LLM Analysis failed: " ++ e ++ ". Detail: " ++ detail)
  | .exn msg => fallbackExplanation ("LLM Analysis failed: " ++ msg)
  | .ok content =>
    let response_text := cleanResponseText (pyStrip content)
    match json_loads response_text with
    | some v => v
    | none => fallbackExplanation response_text

/-! ### Report assembler and aggregator (`analyze`, lines 267-387, and
`generate_drug_comparison`, lines 52-63) -/

structure RiskAssessment where
  risk_label : String
  confidence_score : ℚ
  severity : String
  confidence_basis : String
deriving DecidableEq, Repr

structure PGxProfile where
  genes : List String
  diplotype : String
  phenotype : String
  detected_variants : List Variant
deriving DecidableEq, Repr

structure ClinicalRecommendation where
  guideline : String
  recommendation : String
  alternative_drug_suggestion : Option String
deriving DecidableEq, Repr

structure QualityMetrics where
  vcf_parsing_success : Bool
  genes_found : List String
  all_required_genes_available : Bool
  input_file_size_bytes : Nat
  genes_not_detected : List String
  incomplete_variant_data : Bool
  parsing_warnings : List String
deriving DecidableEq, Repr

structure DrugComparison where
  ranked_drugs : List String
  recommended_first_line : String
  reasoning : String
deriving DecidableEq, Repr

/-- One per recognized requested drug.  The nondeterministic `patient_id`
and `timestamp` fields of the source are omitted. -/
structure AnalysisResult where
  drug : String
  risk_assessment : RiskAssessment
  pharmacogenomic_profile : PGxProfile
  clinical_recommendation : ClinicalRecommendation
  llm_generated_explanation : JValue
  quality_metrics : QualityMetrics
  clinical_alert : Option Alert
  decision_path_explanation : String
  drug_comparison_summary : Option DrugComparison

def severity_order : List (String × Nat) :=
  [ ("none", 0), ("low", 1), ("moderate", 2), ("high", 3), ("critical", 4) ]

/-- The sort key of `generate_drug_comparison`:
`severity_order.get(severity, 5)`. -/
def severityRank (severity : String) : Nat :=
  (dictGet? severity_order severity).getD 5

/-- The ordering used to rank results; Python `sorted` with this key is a
stable sort, modelled by `List.insertionSort`. -/
def rankLe (a b : AnalysisResult) : Prop :=
  severityRank a.risk_assessment.severity ≤ severityRank b.risk_assessment.severity

instance : DecidableRel rankLe := fun _ _ => Nat.decLe _ _

/-- Multi-drug aggregator: `None` for fewer than two results, otherwise a
summary with the drugs ranked ascending by severity.  (`ranked[0]` in the
source cannot fail because `ranked` is then nonempty.) -/
def generate_drug_comparison (results : List AnalysisResult) : Option DrugComparison :=
  if results.length ≤ 1 then none
  else
    let ranked := List.insertionSort rankLe results
    let rankedDrugs := ranked.map (·.drug)
    let recommended := rankedDrugs.headD ""
    some { ranked_drugs := rankedDrugs,
           recommended_first_line := recommended,
           reasoning := "Drugs ranked from safest to highest risk based on pharmacogenomic severity: "
             ++ String.intercalate ", " rankedDrugs ++ ". Recommended first-line: "
             ++ recommended ++ " due to lowest risk profile." }

/-- Wild-type placeholder dict for a gene with no detected call. -/
def defaultVariant (g : String) : Variant :=
  { chrom := none, pos := none, rsid := none, ref := none, alt := none, gene := g, star := "*1" }

/-- The `available_variants` dict of the per-drug loop, in gene order. -/
def availableVariantsFor (variants : VMap) (genes : List String) : List (String × Variant) :=
  genes.map (fun g => (g, (dictGet? variants g).getD (defaultVariant g)))

/-- The primary gene's allele designator: the detected variant's star, or
the wild-type default `*1`. -/
def primaryStar (variants : VMap) (primary_gene : String) : String :=
  ((dictGet? variants primary_gene).getD (defaultVariant primary_gene)).star

/-- The per-drug body of the `analyze` loop (lines 297-380): `none` when
the drug is not in `DRUG_GENE_MAP` (the `continue` branch), otherwise the
assembled result record.  `file_size` is `len(file_content)`; `outcome` is
the explanation collaborator's observable outcome for this drug. -/
def analyzeDrug (variants : VMap) (file_size : Nat) (outcome : LLMOutcome)
    (drug : String) : Option AnalysisResult :=
  match (dictGet? DRUG_GENE_MAP drug).getD [] with
  | [] => none
  | primary_gene :: rest_genes =>
    let genes := primary_gene :: rest_genes
    let available_variants := availableVariantsFor variants genes
    let star := primaryStar variants primary_gene
    let phenotype := get_phenotype primary_gene star
    let all_genes_available := genes.all (fun g => (dictGet? variants g).isSome)
    let rsr := evaluate_drug drug phenotype
    let risk_label := rsr.1
    let severity := rsr.2.1
    let rationale := rsr.2.2
    let diplotype := if pyIn "/" star then star else star ++ "/" ++ star
    let explanation := call_llm outcome
    let genes_found := genes.filter (fun g => (dictGet? variants g).isSome)
    let conf := calculate_improved_confidence phenotype risk_label all_genes_available
      genes_found genes.length
    let alternative := suggest_alternative drug risk_label
    let alert := generate_clinical_alert risk_label severity
    let ra : RiskAssessment :=
      ⟨risk_label, conf.1, severity, conf.2⟩
    let profile : PGxProfile :=
      ⟨genes, diplotype, phenotype,
       (available_variants.map Prod.snd).filter (fun v => v.rsid.isSome)⟩
    let reco : ClinicalRecommendation :=
      ⟨"CPIC (Clinical Pharmacogenetics Implementation Consortium)", rationale, alternative⟩
    let qm : QualityMetrics :=
      ⟨true, genes_found, all_genes_available, file_size,
       genes.filter (fun g => (dictGet? variants g).isNone), !all_genes_available, []⟩
    let path := "Variant (" ++ star ++ ") → Phenotype (" ++ phenotype
      ++ ") → Risk (" ++ risk_label ++ ") → Recommendation (" ++ rationale ++ ")"
    some ⟨drug, ra, profile, reco, explanation, qm, alert, path, none⟩

/-- The per-request result list before the comparison step: one record per
recognized requested drug, in request order (`outcomes` gives the
collaborator outcome per drug). -/
def analyzeResults (variants : VMap) (file_size : Nat) (outcomes : String → LLMOutcome)
    (drugs : List String) : List AnalysisResult :=
  drugs.filterMap (fun d => analyzeDrug variants file_size (outcomes d) d)

/-- Lines 382-385 of `analyze`: attach the comparison summary, when there
is one, to every result of the batch. -/
def attachComparison (results : List AnalysisResult) : List AnalysisResult :=
  match generate_drug_comparison results with
  | none => results
  | some c => results.map (fun r => { r with drug_comparison_summary := some c })

/-- The core of the `analyze` route after parsing: build all per-drug
results and attach the shared comparison summary. -/
def analyze (variants : VMap) (file_size : Nat) (outcomes : String → LLMOutcome)
    (drugs : List String) : List AnalysisResult :=
  attachComparison (analyzeResults variants file_size outcomes drugs)

/-! ### Concrete test fixtures -/

/-- A file whose lines exercise every skip branch of the parser: a comment
line, a line with fewer than 8 fields, a line for a gene outside
`TARGET_GENES`, and a line whose annotation has no `=` entry. -/
def skipsInput : String :=
  "# comment\nshort\tline\nchr1\t5\t.\tA\tG\t.\t.\tGENE=BRCA1;STAR=*2\nchr1\t6\t.\tA\tG\t.\t.\tNOEQUALS"

/-- A data line whose annotation entry holds two `=` characters, making
the tuple unpacking `k,v = item.split("=")` raise `ValueError`. -/
def badEqualsInput : String := "chr1\t123\trsX\tA\tG\t.\t.\tGENE=CYP2D6=1"

/-- The single data line of the round-trip test of the spec. -/
def c2_line : String := "chr22\t42522613\trs3892097\tA\tG\t.\t.\tGENE=CYP2D6"

/-- The variant record the extractor produces for `c2_line`: the star
allele `*4` comes from the known-variant catalog entry for `rs3892097`,
not from the annotation field (which carries no `STAR`). -/
def c2_variant : Variant :=
  ⟨some "chr22", some "42522613", some "rs3892097", some "A", some "G", "CYP2D6", "*4"⟩

def c2_vmap : VMap := [("CYP2D6", c2_variant)]

/-- Quality-metrics filler for the aggregator fixtures. -/
def qmFixture : QualityMetrics := ⟨true, [], true, 0, [], false, []⟩

/-- A result labelled Safe (severity `none`). -/
def resSafe : AnalysisResult :=
  ⟨"SAFEDRUG", ⟨"Safe", 0, "none", ""⟩, ⟨[], "", "NM", []⟩, ⟨"", "", none⟩, .jnull,
   qmFixture, none, "", none⟩

/-- A result labelled Toxic (severity `critical`). -/
def resToxic : AnalysisResult :=
  ⟨"TOXDRUG", ⟨"Toxic", 0, "critical", ""⟩, ⟨[], "", "PM", []⟩, ⟨"", "", none⟩, .jnull,
   qmFixture, none, "", none⟩

/-! ### Helper lemmas -/

lemma containsSub_iff (n : List Char) (h : List Char) :
    containsSub n h = true ↔ n <:+: h := by
  induction h with
  | nil => simp [containsSub]
  | cons c t ih => simp [containsSub, ih, List.infix_cons_iff]

lemma pymin_le_left (a b : ℚ) : pymin a b ≤ a := by
  unfold pymin; split_ifs with h
  · exact le_refl a
  · exact le_of_not_le h

lemma pymin_le_right (a b : ℚ) : pymin a b ≤ b := by
  unfold pymin; split_ifs with h
  · exact h
  · exact le_refl b

lemma pymin_nonneg {a b : ℚ} (ha : 0 ≤ a) (hb : 0 ≤ b) : 0 ≤ pymin a b := by
  unfold pymin; split_ifs <;> assumption

lemma pymin_mono_left {a a' : ℚ} (h : a ≤ a') (b : ℚ) : pymin a b ≤ pymin a' b := by
  unfold pymin; split_ifs <;> linarith

lemma pymin_eq_left_of_lt {a b : ℚ} (h : pymin a b < b) : pymin a b = a := by
  unfold pymin at h ⊢
  split_ifs at h ⊢ with h1
  · rfl
  · exact absurd h (lt_irrefl b)

/-- Core monotonicity of the confidence formula in the completeness term,
for a fixed base `B`. -/
lemma conf_core {B c1 c2 : ℚ} (h : c1 < c2) :
    pymin (B + c1 * 0.05) 0.99 ≤ pymin (B + c2 * 0.05) 0.99 ∧
    (pymin (B + c2 * 0.05) 0.99 < 0.99 →
      pymin (B + c1 * 0.05) 0.99 < pymin (B + c2 * 0.05) 0.99) := by
  have ha : B + c1 * 0.05 < B + c2 * 0.05 := by
    have := mul_lt_mul_of_pos_right h (show (0:ℚ) < 0.05 by norm_num)
    linarith
  refine ⟨pymin_mono_left ha.le _, fun h2 => ?_⟩
  have heq := pymin_eq_left_of_lt h2
  calc pymin (B + c1 * 0.05) 0.99 ≤ B + c1 * 0.05 := pymin_le_left _ _
    _ < B + c2 * 0.05 := ha
    _ = pymin (B + c2 * 0.05) 0.99 := heq.symm

/-! ### Claim theorems -/

/-- C1: the spec promises that the extractor never raises and that
malformed input degrades silently.  The skip branches do hold (first
conjunct: comment line, short line, non-target gene, annotation entry
without `=` all parse to the empty mapping with no error), but a data line
whose annotation entry contains two `=` characters makes
`k,v = item.split("=")` raise `ValueError` (second conjunct), so the code
does not satisfy the documented never-fails contract. -/
theorem claim1_parse_never_raises_violated :
    parse_vcf skipsInput = .ok [] ∧
    parse_vcf badEqualsInput = .error (.valueError "too many values to unpack") := by
  constructor
  · decide
  · decide

/-- C2: round trip for the single catalog line and drug CODEINE: the
extractor resolves `*4` from the known-variant catalog entry for
`rs3892097` (the annotation field carries no star allele), the classifier
yields PM, the rule engine yields Toxic with severity critical, a clinical
alert is generated, and the morphine/fentanyl alternative is suggested. -/
theorem claim2_codeine_round_trip :
    parse_vcf c2_line = .ok c2_vmap ∧
    (analyzeDrug c2_vmap 0 .noKey "CODEINE").map
      (fun r => r.pharmacogenomic_profile.phenotype) = some "PM" ∧
    (analyzeDrug c2_vmap 0 .noKey "CODEINE").map
      (fun r => r.risk_assessment.risk_label) = some "Toxic" ∧
    (analyzeDrug c2_vmap 0 .noKey "CODEINE").map
      (fun r => r.risk_assessment.severity) = some "critical" ∧
    (analyzeDrug c2_vmap 0 .noKey "CODEINE").map
      (fun r => r.clinical_alert.isSome) = some true ∧
    (analyzeDrug c2_vmap 0 .noKey "CODEINE").map
      (fun r => r.clinical_recommendation.alternative_drug_suggestion) =
        some (some "Consider morphine or fentanyl as alternative opioids") ∧
    (analyzeDrug c2_vmap 0 .noKey "CODEINE").map
      (fun r => r.pharmacogenomic_profile.diplotype) = some "*4/*4" := by
  refine ⟨by decide, by decide, by decide, by decide, by decide, by decide, by decide⟩

/-- C3 counterexample: the confidence score is NOT strictly increasing in
the completeness fraction with the other arguments held fixed — with
phenotype NM, risk Safe, completeness fractions 4/5 and 5/5 both land on
the 0.99 cap, so a strictly larger fraction can leave the score
unchanged. -/
theorem claim3_counterexample :
    (["G1", "G2", "G3", "G4"] : List String).length <
      (["G1", "G2", "G3", "G4", "G5"] : List String).length ∧
    (calculate_improved_confidence "NM" "Safe" false ["G1", "G2", "G3", "G4"] 5).1 =
      (calculate_improved_confidence "NM" "Safe" false ["G1", "G2", "G3", "G4", "G5"] 5).1 := by
  constructor
  · decide
  · norm_num [calculate_improved_confidence, pymin]

/-- C3 (amended): the confidence score weakly increases with the
completeness fraction, holding phenotype, risk label, gene-availability
flag and total gene count fixed, and strictly increases whenever the
larger score is below the 0.99 cap. -/
theorem claim3_confidence_monotone (phenotype risk_label : String) (flag : Bool)
    (gf1 gf2 : List String) (total : Nat) (ht : 0 < total)
    (hlen : gf1.length < gf2.length) :
    (calculate_improved_confidence phenotype risk_label flag gf1 total).1 ≤
      (calculate_improved_confidence phenotype risk_label flag gf2 total).1 ∧
    ((calculate_improved_confidence phenotype risk_label flag gf2 total).1 < 0.99 →
      (calculate_improved_confidence phenotype risk_label flag gf1 total).1 <
        (calculate_improved_confidence phenotype risk_label flag gf2 total).1) := by
  have ht' : (0:ℚ) < (total : ℚ) := by exact_mod_cast ht
  have hc : ((gf1.length : ℚ) / (total : ℚ)) < ((gf2.length : ℚ) / (total : ℚ)) :=
    (div_lt_div_iff_of_pos_right ht').mpr (by exact_mod_cast hlen)
  simp only [calculate_improved_confidence, if_pos ht]
  exact conf_core hc

/-- Witness for `claim3_confidence_monotone` at a concrete input. -/
theorem claim3_witness :
    (calculate_improved_confidence "X" "Y" false [] 1).1 ≤
      (calculate_improved_confidence "X" "Y" false ["A"] 1).1 ∧
    ((calculate_improved_confidence "X" "Y" false ["A"] 1).1 < 0.99 →
      (calculate_improved_confidence "X" "Y" false [] 1).1 <
        (calculate_improved_confidence "X" "Y" false ["A"] 1).1) :=
  claim3_confidence_monotone "X" "Y" false [] ["A"] 1 (by decide) (by decide)

/-- C4: any allele-designator string containing a Poor-Metabolizer marker
(`*3`, `*4`, `*5` or `*6`) as a substring classifies PM regardless of
any other substrings present, for every gene argument, because the PM
list is checked before the IM and URM lists. -/
theorem claim4_pm_outranks (gene star : String)
    (h : "*3".data <:+: star.data ∨ "*4".data <:+: star.data ∨
         "*5".data <:+: star.data ∨ "*6".data <:+: star.data) :
    get_phenotype gene star = "PM" := by
  have hpm : (["*3", "*4", "*5", "*6"].any fun p => pyIn p star) = true := by
    simp only [List.any_cons, List.any_nil, Bool.or_eq_true, pyIn]
    rcases h with h | h | h | h
    · exact Or.inl ((containsSub_iff _ _).mpr h)
    · exact Or.inr (Or.inl ((containsSub_iff _ _).mpr h))
    · exact Or.inr (Or.inr (Or.inl ((containsSub_iff _ _).mpr h)))
    · exact Or.inr (Or.inr (Or.inr (Or.inl ((containsSub_iff _ _).mpr h))))
  simp [get_phenotype, hpm]

/-- Witness for `claim4_pm_outranks`: a designator containing both the PM
marker `*4` and the IM marker `*10` classifies PM. -/
theorem claim4_witness : get_phenotype "CYP2D6" "*4/*10" = "PM" :=
  claim4_pm_outranks "CYP2D6" "*4/*10"
    (Or.inr (Or.inl ((containsSub_iff "*4".data "*4/*10".data).mp (by decide))))

/-- C9: for every phenotype, risk label, availability flag, genes-found
list and positive total gene count, the confidence score lies in
[0, 0.99]. -/
theorem claim9_confidence_bounds (phenotype risk_label : String) (flag : Bool)
    (gf : List String) (total : Nat) (ht : 0 < total) :
    0 ≤ (calculate_improved_confidence phenotype risk_label flag gf total).1 ∧
    (calculate_improved_confidence phenotype risk_label flag gf total).1 ≤ 0.99 := by
  simp only [calculate_improved_confidence]
  constructor
  · apply pymin_nonneg _ (by norm_num)
    have hd : (0:ℚ) ≤ (gf.length : ℚ) / (total : ℚ) := by positivity
    split_ifs <;> linarith
  · exact pymin_le_right _ _

/-- Witness for `claim9_confidence_bounds` at a concrete input. -/
theorem claim9_witness :
    0 ≤ (calculate_improved_confidence "NM" "Safe" true ["CYP2D6"] 1).1 ∧
    (calculate_improved_confidence "NM" "Safe" true ["CYP2D6"] 1).1 ≤ 0.99 :=
  claim9_confidence_bounds "NM" "Safe" true ["CYP2D6"] 1 (by decide)

/-- C5: for every recognized drug whose primary gene has no detected
variant, the allele designator defaults to `*1`, the phenotype resolves
to NM, and the risk label is exactly what the static rule table defines
for (drug, NM). -/
theorem claim5_no_variant_defaults (drug g : String) (gs : List String) (variants : VMap)
    (fs : Nat) (o : LLMOutcome)
    (hmap : dictGet? DRUG_GENE_MAP drug = some (g :: gs))
    (hnone : dictGet? variants g = none) :
    primaryStar variants g = "*1" ∧
    ∃ r, analyzeDrug variants fs o drug = some r ∧
      r.pharmacogenomic_profile.phenotype = "NM" ∧
      r.risk_assessment.risk_label = (lookupRule drug "NM").1 := by
  have hstar : primaryStar variants g = "*1" := by
    simp [primaryStar, hnone, defaultVariant]
  have hget : (dictGet? DRUG_GENE_MAP drug).getD [] = g :: gs := by rw [hmap]; rfl
  refine ⟨hstar, ?_⟩
  simp only [analyzeDrug, hget]
  refine ⟨_, rfl, ?_, ?_⟩
  · show get_phenotype g (primaryStar variants g) = "NM"
    rw [hstar]
    rfl
  · show (evaluate_drug drug (get_phenotype g (primaryStar variants g))).1 =
      (lookupRule drug "NM").1
    rw [hstar]
    rfl

/-- Witness for `claim5_no_variant_defaults` at CODEINE with an empty
variant mapping. -/
theorem claim5_witness :
    primaryStar [] "CYP2D6" = "*1" ∧
    ∃ r, analyzeDrug [] 0 .noKey "CODEINE" = some r ∧
      r.pharmacogenomic_profile.phenotype = "NM" ∧
      r.risk_assessment.risk_label = (lookupRule "CODEINE" "NM").1 :=
  claim5_no_variant_defaults "CODEINE" "CYP2D6" [] [] 0 .noKey (by decide) (by decide)

/-- C7 counterexample: the collaborator content `""` is an invalid
payload (`json.loads` fails on it), yet the resulting explanation block
carries the EMPTY string in its first field, not non-empty fallback
text as the claim states. -/
theorem claim7_counterexample :
    json_loads (cleanResponseText (pyStrip "")) = none ∧
    call_llm (.ok "") =
      .jobj [ ("genetic_finding", .jstr ""), ("biological_mechanism", .jstr ""),
              ("clinical_impact", .jstr ""), ("recommended_action", .jstr "") ] := by
  exact ⟨rfl, rfl⟩

/-- C7 (amended): the risk decision is independent of the collaborator's
outcome — for any two outcomes the risk-assessment, pharmacogenomic
profile and clinical-recommendation blocks are identical — and an invalid
payload yields the fallback explanation whose first field is the
fence-stripped payload text (hence non-empty exactly when that text is
non-empty) with empty strings in the other three fields; the collaborator
outcome is consumed totally, so no failure propagates. -/
theorem claim7_explanation_isolation :
    (∀ (variants : VMap) (fs : Nat) (o1 o2 : LLMOutcome) (drug : String),
      (analyzeDrug variants fs o1 drug).map (fun r => r.risk_assessment) =
        (analyzeDrug variants fs o2 drug).map (fun r => r.risk_assessment) ∧
      (analyzeDrug variants fs o1 drug).map (fun r => r.pharmacogenomic_profile) =
        (analyzeDrug variants fs o2 drug).map (fun r => r.pharmacogenomic_profile) ∧
      (analyzeDrug variants fs o1 drug).map (fun r => r.clinical_recommendation) =
        (analyzeDrug variants fs o2 drug).map (fun r => r.clinical_recommendation)) ∧
    (∀ content : String,
      json_loads (cleanResponseText (pyStrip content)) = none →
      call_llm (.ok content) = fallbackExplanation (cleanResponseText (pyStrip content))) := by
  constructor
  · intro variants fs o1 o2 drug
    cases h : (dictGet? DRUG_GENE_MAP drug).getD [] with
    | nil => simp [analyzeDrug, h]
    | cons g gs => simp [analyzeDrug, h]
  · intro content hnone
    simp [call_llm, hnone]

/-- Witness for `claim7_explanation_isolation`: the fallback branch at a
concrete unparseable payload. -/
theorem claim7_witness :
    call_llm (.ok "not json") = fallbackExplanation (cleanResponseText (pyStrip "not json")) :=
  claim7_explanation_isolation.2 "not json" rfl

lemma drug_gene_map_cons (d : String) (gs : List String)
    (h : dictGet? DRUG_GENE_MAP d = some gs) : ∃ g gs', gs = g :: gs' := by
  simp only [DRUG_GENE_MAP, dictGet?] at h
  split_ifs at h <;> exact ⟨_, _, (Option.some.inj h).symm⟩

lemma attachComparison_drugs (rs : List AnalysisResult) :
    (attachComparison rs).map (fun r => r.drug) = rs.map (fun r => r.drug) := by
  unfold attachComparison
  cases generate_drug_comparison rs with
  | none => rfl
  | some c =>
    simp only [List.map_map]
    congr 1

lemma analyzeResults_drugs (variants : VMap) (fs : Nat) (outcomes : String → LLMOutcome)
    (drugs : List String) :
    (analyzeResults variants fs outcomes drugs).map (fun r => r.drug) =
      drugs.filter (fun d => (dictGet? DRUG_GENE_MAP d).isSome) := by
  induction drugs with
  | nil => rfl
  | cons d rest ih =>
    simp only [analyzeResults, List.filterMap_cons, List.filter_cons] at ih ⊢
    cases h : dictGet? DRUG_GENE_MAP d with
    | none =>
      have hnone : analyzeDrug variants fs (outcomes d) d = none := by
        simp [analyzeDrug, h]
      simp [hnone, h, ih]
    | some gs =>
      obtain ⟨g, gs', rfl⟩ := drug_gene_map_cons d gs h
      have hget : (dictGet? DRUG_GENE_MAP d).getD [] = g :: gs' := by rw [h]; rfl
      have hsome : ∃ r, analyzeDrug variants fs (outcomes d) d = some r ∧ r.drug = d := by
        simp only [analyzeDrug, hget]
        exact ⟨_, rfl, rfl⟩
      obtain ⟨r, hr, hd⟩ := hsome
      simp [hr, h, ih, hd]

/-- C8: the analysis output contains exactly one result per recognized
requested drug, in request order; unrecognized drug names such as ASPIRIN
are dropped with no result record, and the batch is still produced (the
analysis is a total function). -/
theorem claim8_unrecognized_drugs_dropped :
    (∀ (variants : VMap) (fs : Nat) (outcomes : String → LLMOutcome) (drugs : List String),
      (analyze variants fs outcomes drugs).map (fun r => r.drug) =
        drugs.filter (fun d => (dictGet? DRUG_GENE_MAP d).isSome)) ∧
    (∀ (variants : VMap) (fs : Nat) (o : LLMOutcome),
      analyzeDrug variants fs o "ASPIRIN" = none) := by
  constructor
  · intro variants fs outcomes drugs
    rw [analyze, attachComparison_drugs, analyzeResults_drugs]
  · intro variants fs o
    rfl

/-- C6: the aggregator produces no comparison for fewer than 2 results;
for 2 or more it ranks the results by a stable ascending sort on severity
rank (permutation + sortedness + stability of every rank-respecting
pair-sublist), recommends the first drug of the ranked order, and the
identical summary is attached to every result of the batch; the rank
function orders none < low < moderate < high < critical with every
unrecognized severity ranked 5, i.e. last; concretely, a Toxic-labelled
and a Safe-labelled result rank [Safe-drug, Toxic-drug] with the Safe
drug recommended. -/
theorem claim6_aggregator :
    (∀ rs : List AnalysisResult, rs.length ≤ 1 → generate_drug_comparison rs = none) ∧
    (∀ rs : List AnalysisResult, 2 ≤ rs.length →
      ∃ c, generate_drug_comparison rs = some c ∧
        ∃ ranked : List AnalysisResult,
          ranked.Perm rs ∧ List.Sorted rankLe ranked ∧
          (∀ pair : List AnalysisResult, pair.Pairwise rankLe → pair.Sublist rs →
            pair.Sublist ranked) ∧
          c.ranked_drugs = ranked.map (fun r => r.drug) ∧
          c.recommended_first_line = (ranked.map (fun r => r.drug)).headD "") ∧
    (∀ rs : List AnalysisResult, 2 ≤ rs.length →
      ∀ r ∈ attachComparison rs, r.drug_comparison_summary = generate_drug_comparison rs) ∧
    (severityRank "none" = 0 ∧ severityRank "low" = 1 ∧ severityRank "moderate" = 2 ∧
      severityRank "high" = 3 ∧ severityRank "critical" = 4 ∧
      ∀ s : String, s ∉ ["none", "low", "moderate", "high", "critical"] →
        severityRank s = 5) ∧
    ((generate_drug_comparison [resToxic, resSafe]).map (fun c => c.ranked_drugs) =
        some ["SAFEDRUG", "TOXDRUG"] ∧
      (generate_drug_comparison [resToxic, resSafe]).map (fun c => c.recommended_first_line) =
        some "SAFEDRUG") := by
  haveI hTot : IsTotal AnalysisResult rankLe := ⟨fun a b => Nat.le_total _ _⟩
  haveI hTrans : IsTrans AnalysisResult rankLe := ⟨fun _ _ _ hab hbc => le_trans hab hbc⟩
  refine ⟨?_, ?_, ?_, ⟨by decide, by decide, by decide, by decide, by decide, ?_⟩, ?_, ?_⟩
  · intro rs h
    simp [generate_drug_comparison, if_pos h]
  · intro rs h
    have hn : ¬ rs.length ≤ 1 := by omega
    simp only [generate_drug_comparison, if_neg hn]
    refine ⟨_, rfl, List.insertionSort rankLe rs, ?_, ?_, ?_, rfl, rfl⟩
    · exact List.perm_insertionSort rankLe rs
    · exact List.sorted_insertionSort rankLe rs
    · intro pair hp hsub
      exact List.sublist_insertionSort hp hsub
  · intro rs h r hr
    have hn : ¬ rs.length ≤ 1 := by omega
    have hc : ∃ c, generate_drug_comparison rs = some c := by
      simp only [generate_drug_comparison, if_neg hn]
      exact ⟨_, rfl⟩
    obtain ⟨c, hc⟩ := hc
    simp only [attachComparison, hc] at hr
    obtain ⟨x, _, rfl⟩ := List.mem_map.mp hr
    simp [hc]
  · intro s hs
    simp only [List.mem_cons, List.not_mem_nil, or_false, not_or] at hs
    obtain ⟨h1, h2, h3, h4, h5⟩ := hs
    simp [severityRank, severity_order, dictGet?, h1, h2, h3, h4, h5]
  · decide
  · decide

/-- Witness for `claim6_aggregator`: no comparison is produced for the
empty batch. -/
theorem claim6_witness : generate_drug_comparison [] = none :=
  claim6_aggregator.1 [] (by decide)

lemma dictGet?_replace {α : Type} (k g : String) (v : α) (hne : g ≠ k) :
    ∀ m : List (String × α),
      dictGet? (m.map (fun p => if p.1 = k then (k, v) else p)) g = dictGet? m g := by
  intro m
  induction m with
  | nil => rfl
  | cons p t ih =>
    obtain ⟨k1, v1⟩ := p
    simp only [List.map_cons]
    by_cases h1 : k1 = k
    · subst h1
      rw [if_pos (show (k1, v1).1 = k1 from rfl)]
      simp only [dictGet?]
      rw [if_neg hne, if_neg hne]
      exact ih
    · rw [if_neg (show ¬((k1, v1).1 = k) from h1)]
      simp only [dictGet?]
      by_cases h2 : g = k1
      · rw [if_pos h2, if_pos h2]
      · rw [if_neg h2, if_neg h2]
        exact ih

lemma dictGet?_append {α : Type} (k g : String) (v : α) (hne : g ≠ k) :
    ∀ m : List (String × α), dictGet? (m ++ [(k, v)]) g = dictGet? m g := by
  intro m
  induction m with
  | nil => simp [dictGet?, hne]
  | cons p t ih =>
    obtain ⟨k1, v1⟩ := p
    by_cases h2 : g = k1 <;> simp_all [dictGet?]

lemma dictGet?_dictInsert_ne {α : Type} (m : List (String × α)) (k g : String) (v : α)
    (hne : g ≠ k) : dictGet? (dictInsert m k v) g = dictGet? m g := by
  unfold dictInsert
  split_ifs
  · exact dictGet?_replace k g v hne m
  · exact dictGet?_append k g v hne m

lemma TargetOnly.insert {m : VMap} (hP : TargetOnly m) {k : String} (v : Variant)
    (hk : TARGET_GENES.contains k = true) : TargetOnly (dictInsert m k v) := by
  intro g hg
  by_cases hgk : g = k
  · subst hgk; exact hk
  · rw [dictGet?_dictInsert_ne m k g v hgk] at hg
    exact hP g hg

lemma parseFields_inv (variants : VMap) (p0 p1 p2 p3 p4 p7 : String) (m' : VMap)
    (h : parseFields variants p0 p1 p2 p3 p4 p7 = .ok m') (hP : TargetOnly variants) :
    TargetOnly m' := by
  simp only [parseFields] at h
  split at h
  · split_ifs at h with hT
    · cases h; exact hP.insert _ hT
    · cases h; exact hP
  · cases hf : (pySplitChar ';' p7).foldlM parseInfoItem [] with
    | error e => rw [hf] at h; simp [Bind.bind, Except.bind] at h
    | ok info_dict =>
      rw [hf] at h
      simp only [Bind.bind, Except.bind] at h
      split at h
      · split_ifs at h with hT
        · cases h; exact hP.insert _ hT
        · cases h; exact hP
      · cases h; exact hP

lemma parseLine_inv (variants : VMap) (line : String) (m' : VMap)
    (h : parseLine variants line = .ok m') (hP : TargetOnly variants) : TargetOnly m' := by
  simp only [parseLine] at h
  split at h
  · cases h; exact hP
  · split at h
    · exact parseFields_inv _ _ _ _ _ _ _ _ h hP
    · cases h; exact hP

lemma foldl_parseLine_inv :
    ∀ (lines : List String) (m0 m : VMap), lines.foldlM parseLine m0 = .ok m →
      TargetOnly m0 → TargetOnly m := by
  intro lines
  induction lines with
  | nil =>
    intro m0 m h hP
    simp only [List.foldlM_nil] at h
    cases h; exact hP
  | cons l rest ih =>
    intro m0 m h hP
    rw [List.foldlM_cons] at h
    cases hl : parseLine m0 l with
    | error e => rw [hl] at h; simp [Bind.bind, Except.bind] at h
    | ok m1 =>
      rw [hl] at h
      simp only [Bind.bind, Except.bind] at h
      exact ih m1 m h (parseLine_inv m0 l m1 hl hP)

/-- Keys of any successful `parse_vcf` output are target genes. -/
lemma parse_vcf_TargetOnly (content : String) (m : VMap) (h : parse_vcf content = .ok m) :
    TargetOnly m := by
  refine foldl_parseLine_inv _ _ _ h ?_
  intro g hg
  simp [dictGet?] at hg

/-- Confidence bound when the all-genes bonus is off, out of 2 required
genes of which at most one was found. -/
lemma conf_bound_no_bonus (p r : String) (gf : List String) (total : Nat)
    (hlen : gf.length ≤ 1) (ht : total = 2) :
    (calculate_improved_confidence p r false gf total).1 ≤ 0.975 := by
  subst ht
  simp only [calculate_improved_confidence, Bool.false_eq_true, if_false,
    if_pos (show 0 < 2 by norm_num)]
  apply le_trans (pymin_le_left _ _)
  have hgf : ((gf.length : ℚ)) ≤ 1 := by exact_mod_cast hlen
  split_ifs <;> linarith

lemma analyzeDrug_secondary_blocked (m : VMap) (fs : Nat) (o : LLMOutcome)
    (drug primary secondary : String)
    (hmap : (dictGet? DRUG_GENE_MAP drug).getD [] = [primary, secondary])
    (hsec : dictGet? m secondary = none) :
    ∃ r, analyzeDrug m fs o drug = some r ∧
      r.quality_metrics.all_required_genes_available = false ∧
      r.quality_metrics.genes_found.length ≤ 1 ∧
      r.risk_assessment.confidence_score ≤ 0.975 := by
  have hall : ([primary, secondary].all fun g => (dictGet? m g).isSome) = false := by
    simp [hsec]
  have hflen : (([primary, secondary].filter fun g => (dictGet? m g).isSome)).length ≤ 1 := by
    cases hp : (dictGet? m primary).isSome <;> simp [List.filter_cons, hp, hsec]
  simp only [analyzeDrug, hmap]
  refine ⟨_, rfl, hall, hflen, ?_⟩
  simp only [hall]
  exact conf_bound_no_bonus _ _ _ _ hflen rfl

/-- C10: on every successfully parsed input file, only target genes can
carry a detected variant; `VKORC1` and `NUDT15` are not target genes, so
for WARFARIN and AZATHIOPRINE the all-required-genes flag is false on
every input, at most one of the two required genes is ever found
(completeness never exceeds 1/2), and the +0.05 all-genes confidence
bonus is unreachable (the confidence score stays ≤ 0.975 < 0.99). -/
theorem claim10_secondary_genes_unreachable (content : String) (m : VMap) (fs : Nat)
    (o : LLMOutcome) (hparse : parse_vcf content = .ok m) :
    TargetOnly m ∧
    TARGET_GENES.contains "VKORC1" = false ∧
    TARGET_GENES.contains "NUDT15" = false ∧
    (∃ r, analyzeDrug m fs o "WARFARIN" = some r ∧
      r.quality_metrics.all_required_genes_available = false ∧
      r.quality_metrics.genes_found.length ≤ 1 ∧
      r.risk_assessment.confidence_score ≤ 0.975) ∧
    (∃ r, analyzeDrug m fs o "AZATHIOPRINE" = some r ∧
      r.quality_metrics.all_required_genes_available = false ∧
      r.quality_metrics.genes_found.length ≤ 1 ∧
      r.risk_assessment.confidence_score ≤ 0.975) := by
  have hto : TargetOnly m := parse_vcf_TargetOnly content m hparse
  have hnone : ∀ g : String, TARGET_GENES.contains g = false → dictGet? m g = none := by
    intro g hg
    cases hV : dictGet? m g with
    | none => rfl
    | some v =>
      have := hto g (by simp [hV])
      rw [hg] at this
      cases this
  refine ⟨hto, by decide, by decide, ?_, ?_⟩
  · exact analyzeDrug_secondary_blocked m fs o "WARFARIN" "CYP2C9" "VKORC1" rfl
      (hnone "VKORC1" (by decide))
  · exact analyzeDrug_secondary_blocked m fs o "AZATHIOPRINE" "TPMT" "NUDT15" rfl
      (hnone "NUDT15" (by decide))

/-- Witness for `claim10_secondary_genes_unreachable` on the empty file. -/
theorem claim10_witness :
    TargetOnly [] ∧
    TARGET_GENES.contains "VKORC1" = false ∧
    TARGET_GENES.contains "NUDT15" = false ∧
    (∃ r, analyzeDrug [] 0 .noKey "WARFARIN" = some r ∧
      r.quality_metrics.all_required_genes_available = false ∧
      r.quality_metrics.genes_found.length ≤ 1 ∧
      r.risk_assessment.confidence_score ≤ 0.975) ∧
    (∃ r, analyzeDrug [] 0 .noKey "AZATHIOPRINE" = some r ∧
      r.quality_metrics.all_required_genes_available = false ∧
      r.quality_metrics.genes_found.length ≤ 1 ∧
      r.risk_assessment.confidence_score ≤ 0.975) :=
  claim10_secondary_genes_unreachable "" [] 0 .noKey rfl

end PharmaGuard
